import Mathlib

/-!
Shallow embedding of the phrame repository's surface/window/context lifecycle:
the graphics-context binder (crates/interphace/src/graphics_context.rs and the
init_egl functions of src/main.rs and crates/poc/src/bin/layer_shell.rs), the
configure/draw handlers (crates/interphace/src/backend.rs, window.rs, and the
two example binaries), the seat-capability handlers, and the dispatch loops
(crates/interphace/src/application.rs, the two example main functions).
-/

namespace Phrame

/-! ### Context creation with GL→GLES fallback
    (initialize_gl_context, graphics_context.rs 121-134; init_egl,
    layer_shell.rs 193-203 and src/main.rs 263-273). -/

/-- The two context API profiles requested via ContextAttributesBuilder:
    ContextApi::OpenGl(None) and ContextApi::Gles(None). -/
inductive ContextApi where
  | openGl
  | gles
deriving DecidableEq, Repr

/-- A driver's answer to one display.create_context request: the created
    context (a handle, modelled as a number) or the rejection error. -/
abbrev CtxResult := Except Nat Nat

/-- Whether a create_context request succeeded. -/
def ctxOk : CtxResult → Bool
  | Except.ok _ => true
  | Except.error _ => false

/-- The context-creation step, from the source
    display.create_context(config, gl_attrs)
      .or_else(|_| display.create_context(config, gles_attrs)) :
    request a desktop OpenGL context first and, only if that request is
    rejected, issue one further request for a GLES context. The list records
    every request issued to the driver, in order. -/
def create_context_with_fallback (driver : ContextApi → CtxResult) :
    List ContextApi × CtxResult :=
  match driver ContextApi.openGl with
  | Except.ok c => ([ContextApi.openGl], Except.ok c)
  | Except.error _ => ([ContextApi.openGl, ContextApi.gles], driver ContextApi.gles)

/-- Outcome of the whole bind step: a context, or the fatal panic from
    .expect("Failed to create context"). -/
inductive BindOutcome where
  | context (c : Nat)
  | fatal (msg : String)
deriving DecidableEq, Repr

/-- The .expect("Failed to create context") that ends the fallback chain:
    an error at this point aborts the process. -/
def finish_context_bind : CtxResult → BindOutcome
  | Except.ok c => BindOutcome.context c
  | Except.error _ => BindOutcome.fatal "Failed to create context"

/-! ### Configure-size handling
    (LayerShellHandler::configure for SimpleLayer, layer_shell.rs 293-314;
    WindowHandler::configure for EglExample, src/main.rs 371-386). -/

/-- The working size SimpleLayer's layer-shell configure handler adopts:
    if either reported dimension is zero both are replaced by 256, otherwise
    the reported size is kept (layer_shell.rs 301-307). -/
def simple_layer_configure_size (new_size : Nat × Nat) : Nat × Nat :=
  if new_size.1 = 0 ∨ new_size.2 = 0 then (256, 256)
  else (new_size.1, new_size.2)

/-- The working size EglExample's xdg-window configure handler adopts:
    configure.new_size.unwrap_or((1280, 800)) — the reported size is taken
    literally whenever one is present (src/main.rs 379-382). -/
def egl_example_configure_size (new_size : Option (Nat × Nat)) : Nat × Nat :=
  new_size.getD (1280, 800)

/-! ### Window-surface presentation-target dimensions
    (initialize_gl_context, graphics_context.rs 136-144; init_egl,
    layer_shell.rs 205-214 and src/main.rs 275-282). -/

/-- SurfaceAttributesBuilder::build(handle, NonZeroU32::new(w).unwrap(),
    NonZeroU32::new(h).unwrap()): the attributes carry the requested pixel
    size; the unwrap panics when a dimension is zero (modelled as none). -/
def build_surface_attributes (w h : Nat) : Option (Nat × Nat) :=
  if w = 0 ∨ h = 0 then none else some (w, h)

/-- The presentation-target size created by init_egl(surface, width, height):
    the window surface is created with the attributes built from the given
    width and height. -/
def init_egl_surface_size (width height : Nat) : Option (Nat × Nat) :=
  build_surface_attributes width height

/-- The presentation-target size created by interphace's initialize_gl_context:
    the function takes no dimension arguments and builds the surface
    attributes from the hardcoded constants 100 and 100
    (graphics_context.rs 136-140). -/
def initialize_gl_context_surface_size : Option (Nat × Nat) :=
  build_surface_attributes 100 100

/-- Modelled from the spec's contract wording, for comparison with the source:
    bind_context(surface, width, height) creates the window-surface
    presentation target at exactly the given dimensions. -/
def bind_context_spec_size (width height : Nat) : Option (Nat × Nat) :=
  some (width, height)

/-! ### Native-handle derivation with its liveness check
    (initialize_gl_context, graphics_context.rs 95-105; init_egl,
    layer_shell.rs 162-172 and src/main.rs 232-242). -/

/-- The raw handles the binder derives from the protocol surface. -/
inductive RawHandle where
  | waylandDisplay (ptr : Nat)
  | waylandWindow (ptr : Nat)
deriving DecidableEq, Repr

/-- Native handle derivation: the very first step is
    wl_surface.backend().upgrade().expect("Connection has been closed") —
    upgrade on the weak connection handle returns none once the connection is
    dropped, and the expect panic (modelled as the error) fires before any
    display or window pointer is read. Only a live backend yields handles,
    and the display handle comes from that live backend's display_ptr. -/
def derive_native_handles (backend_upgrade : Option Nat) (surface_id_ptr : Nat) :
    Except String (RawHandle × RawHandle) :=
  match backend_upgrade with
  | none => Except.error "Connection has been closed"
  | some display_ptr =>
      Except.ok (RawHandle.waylandDisplay display_ptr,
                 RawHandle.waylandWindow surface_id_ptr)

/-- Whether handle derivation succeeded. -/
def handlesOk : Except String (RawHandle × RawHandle) → Bool
  | Except.ok _ => true
  | Except.error _ => false

/-! ### Seat capability handlers for SimpleLayer
    (SeatHandler::new_capability, layer_shell.rs 324-348;
    SeatHandler::remove_capability, layer_shell.rs 350-366). -/

/-- The seat capability reported by the compositor. -/
inductive Capability where
  | keyboard
  | pointer
deriving DecidableEq, Repr

/-- The capability-relevant state of SimpleLayer: the optional keyboard and
    pointer device handles, plus a counter standing for the fresh protocol
    devices that seat_state.get_keyboard / get_pointer would create. -/
structure SeatCaps where
  keyboard : Option Nat
  pointer : Option Nat
  next_device : Nat
deriving DecidableEq, Repr

/-- SeatHandler::new_capability: a keyboard capability creates and stores a
    keyboard device only when self.keyboard.is_none(); likewise for the
    pointer. Creating a device consumes a fresh device id. -/
def new_capability (st : SeatCaps) (cap : Capability) : SeatCaps :=
  let st1 :=
    if cap = Capability.keyboard ∧ st.keyboard = none then
      { st with keyboard := some st.next_device, next_device := st.next_device + 1 }
    else st
  if cap = Capability.pointer ∧ st1.pointer = none then
    { st1 with pointer := some st1.next_device, next_device := st1.next_device + 1 }
  else st1

/-- SeatHandler::remove_capability: the keyboard handle is taken and released
    only when self.keyboard.is_some(); likewise for the pointer. -/
def remove_capability (st : SeatCaps) (cap : Capability) : SeatCaps :=
  let st1 :=
    if cap = Capability.keyboard ∧ st.keyboard ≠ none then
      { st with keyboard := none }
    else st
  if cap = Capability.pointer ∧ st1.pointer ≠ none then
    { st1 with pointer := none }
  else st1

/-! ### Windows, the backend's window list and its configure handler
    (Window and Window::draw, crates/interphace/src/window.rs;
    Backend and WindowHandler::configure, crates/interphace/src/backend.rs 83-101). -/

/-- A drawing command recorded on a skia canvas by Window::draw:
    canvas.clear(Color::from_argb(190, 0, 0, 0)) and
    canvas.draw_circle((50.0, 50.0), 20.0, paint) with
    paint colour from_argb(150, 80, 10, 200). -/
inductive CanvasCmd where
  | clear (a r g b : Nat)
  | circle (cx cy radius : Nat) (a r g b : Nat)
deriving DecidableEq, Repr

/-- The per-window GPU state held by a GraphicsContext: how often its context
    was made current, the canvas contents, and how often the frame was
    flushed and presented. -/
structure GraphicsContext where
  make_current_count : Nat
  canvas : List CanvasCmd
  flush_count : Nat
  present_count : Nat
deriving DecidableEq, Repr

/-- An interphace Window: the identity of its protocol xdg window object and
    its own GraphicsContext. -/
structure Window where
  xdg_window : Nat
  graphics_context : GraphicsContext
deriving DecidableEq, Repr

/-- A placeholder window, used only as the out-of-range default of list
    lookups in theorem statements. -/
def defaultWindow : Window :=
  { xdg_window := 0
    graphics_context := { make_current_count := 0, canvas := [], flush_count := 0,
                          present_count := 0 } }

/-- Window::draw (window.rs 29-45): make_current on this window's own context,
    clear + draw_circle on this window's own canvas, then flush_and_submit and
    swap_buffers — every effect lands on this window's GraphicsContext. -/
def Window.draw (w : Window) : Window :=
  { w with graphics_context :=
      { make_current_count := w.graphics_context.make_current_count + 1
        canvas := [CanvasCmd.clear 190 0 0 0, CanvasCmd.circle 50 50 20 150 80 10 200]
        flush_count := w.graphics_context.flush_count + 1
        present_count := w.graphics_context.present_count + 1 } }

/-- WindowHandler::configure for Backend (backend.rs 91-95):
    self.windows.iter_mut().find(|w| w.xdg_window == window).map(|w| w.draw(qh))
    — the first window whose xdg window object is the event's window is drawn
    in place; every other entry of the list is left as it was. -/
def backend_configure (windows : List Window) (target : Nat) : List Window :=
  match windows with
  | [] => []
  | w :: ws =>
      if w.xdg_window = target then Window.draw w :: ws
      else w :: backend_configure ws target

/-! ### GPU-thread event traces: which context is current when drawing
    (Window::draw, window.rs 29-45 makes its context current first;
    SimpleLayer::draw, layer_shell.rs 491-506 draws with no make-current call,
    relying on the make_current at startup, layer_shell.rs 70). -/

/-- Context-affecting GPU calls issued on the single thread. -/
inductive GlEvent where
  | makeCurrent (ctx : Nat)
  | drawCall (ctx : Nat)
  | present (ctx : Nat)
deriving DecidableEq, Repr

/-- The thread's current context after one event. -/
def next_current (cur : Option Nat) : GlEvent → Option Nat
  | GlEvent.makeCurrent c => some c
  | GlEvent.drawCall _ => cur
  | GlEvent.present _ => cur

/-- A draw or present call is sound only when its context is the thread's
    current context; a make-current call is always sound. -/
def event_ok (cur : Option Nat) : GlEvent → Bool
  | GlEvent.makeCurrent _ => true
  | GlEvent.drawCall c => cur == some c
  | GlEvent.present c => cur == some c

/-- Every event of the trace executes with the right context current. -/
def trace_current_ok : List GlEvent → Option Nat → Bool
  | [], _ => true
  | e :: es, cur => event_ok cur e && trace_current_ok es (next_current cur e)

/-- Every draw call is immediately preceded by a make-current call for its own
    context (the claim's literal reading). -/
def mc_immediately_before : Option GlEvent → List GlEvent → Bool
  | _, [] => true
  | prev, e :: es =>
      (match e with
       | GlEvent.drawCall c => prev == some (GlEvent.makeCurrent c)
       | GlEvent.makeCurrent _ => true
       | GlEvent.present _ => true)
      && mc_immediately_before (some e) es

/-- The GPU-event trace of one interphace Window::draw: make_current on the
    window's context first, then the canvas drawing, then swap_buffers. -/
def window_draw_trace (c : Nat) : List GlEvent :=
  [GlEvent.makeCurrent c, GlEvent.drawCall c, GlEvent.present c]

/-- The trace of a multi-window interphace session: each configure event draws
    its matched window through Window::draw. -/
def backend_session_trace : List Nat → List GlEvent
  | [] => []
  | c :: rest => window_draw_trace c ++ backend_session_trace rest

/-- The GPU-event trace of one SimpleLayer::draw: the canvas drawing and the
    buffer swap on the example's single context — no make-current call. -/
def simple_layer_draw_trace (c : Nat) : List GlEvent :=
  [GlEvent.drawCall c, GlEvent.present c]

/-- The draws of a layer-shell session after startup. -/
def simple_layer_draws_trace (c : Nat) : Nat → List GlEvent
  | 0 => []
  | n + 1 => simple_layer_draw_trace c ++ simple_layer_draws_trace c n

/-- The trace of a layer-shell session: one make_current at startup
    (layer_shell.rs 70), then the draws. -/
def simple_layer_session_trace (c ndraws : Nat) : List GlEvent :=
  GlEvent.makeCurrent c :: simple_layer_draws_trace c ndraws

/-! ### The xdg example's resize/draw state
    (EglExample, src/main.rs 118-133; resize 136-143; draw 145-166;
    configure 371-386). -/

/-- The size-relevant state of EglExample: the adopted working size, the EGL
    window surface's dimensions, the skia canvas's backing render-target
    dimensions (fixed when the canvas is constructed), and the canvas
    dimensions each draw actually used. -/
structure EglExample where
  width : Nat
  height : Nat
  surface_size : Nat × Nat
  canvas_size : Nat × Nat
  draw_canvas_sizes : List (Nat × Nat)
deriving DecidableEq, Repr

/-- EglExample::resize: self.surface.resize(ctx, width, height) resizes the
    EGL window surface in place to the current width/height fields;
    NonZeroU32::new(..).unwrap() panics on a zero dimension (none). The skia
    canvas is not touched. -/
def EglExample.resize (st : EglExample) : Option EglExample :=
  if st.width = 0 ∨ st.height = 0 then none
  else some { st with surface_size := (st.width, st.height) }

/-- EglExample::draw: clears and renders into self.skia_surface — the canvas
    constructed once at startup, whose backing size never changes. The canvas
    size the draw uses is recorded. -/
def EglExample.draw (st : EglExample) : EglExample :=
  { st with draw_canvas_sizes := st.draw_canvas_sizes ++ [st.canvas_size] }

/-- WindowHandler::configure for EglExample: adopt the reported size
    (unwrap_or((1280, 800))), resize the surface in place, draw. No step of
    the handler recreates the skia canvas. -/
def EglExample.configure (st : EglExample) (new_size : Option (Nat × Nat)) :
    Option EglExample :=
  let sz := egl_example_configure_size new_size
  (EglExample.resize { st with width := sz.1, height := sz.2 }).map EglExample.draw

/-- The state after src/main.rs's setup: init_egl at 1280×720 (line 64) and
    the skia canvas created from the surface's dimensions; the width/height
    fields start at 300/200 (lines 100-101). -/
def egl_example_initial : EglExample :=
  { width := 300, height := 200, surface_size := (1280, 720),
    canvas_size := (1280, 720), draw_canvas_sizes := [] }

/-! ### Dispatch loops and exit flags
    (layer_shell.rs 109-116 and handlers; src/main.rs 108-115;
    Application::run, application.rs 24-30; Backend::request_close,
    backend.rs 79-81). -/

/-- The xkbcommon keysym for the Escape key (keysyms::KEY_Escape, 0xff1b). -/
def KEY_Escape : Nat := 65307

/-- Events the layer-shell example's handlers react to. -/
inductive SLEvent where
  | closed
  | configure (new_size : Nat × Nat)
  | pressKey (keysym : Nat)
  | frameDone
deriving DecidableEq, Repr

/-- Loop-relevant state of SimpleLayer (layer_shell.rs 87-106, 217-234). -/
structure SimpleLayer where
  exit : Bool
  first_configure : Bool
  width : Nat
  height : Nat
  draw_count : Nat
deriving DecidableEq, Repr

/-- SimpleLayer::draw, reduced to its observable draw count. -/
def SimpleLayer.draw (st : SimpleLayer) : SimpleLayer :=
  { st with draw_count := st.draw_count + 1 }

/-- The layer-shell handlers: closed sets exit (layer_shell.rs 289-291);
    configure adopts the working size — 256×256 on a zero dimension — and
    triggers the first draw (293-314); press_key sets exit on Escape
    (402-415); a frame callback draws (247-255). -/
def SimpleLayer.handle (st : SimpleLayer) : SLEvent → SimpleLayer
  | SLEvent.closed => { st with exit := true }
  | SLEvent.configure ns =>
      let sz := simple_layer_configure_size ns
      let st1 := { st with width := sz.1, height := sz.2 }
      if st1.first_configure then
        SimpleLayer.draw { st1 with first_configure := false }
      else st1
  | SLEvent.pressKey k => if k = KEY_Escape then { st with exit := true } else st
  | SLEvent.frameDone => SimpleLayer.draw st

/-- One blocking_dispatch: all pending events handled in order. -/
def dispatch_batch (st : SimpleLayer) (batch : List SLEvent) : SimpleLayer :=
  batch.foldl SimpleLayer.handle st

/-- The example main's dispatch loop: dispatch a batch, then check the exit
    flag once at the iteration boundary and break when it is set. The result
    is the final state and the iterations run; none means every delivered
    batch was dispatched and the loop is still blocking for more events. -/
def simple_layer_loop : SimpleLayer → List (List SLEvent) → Option (SimpleLayer × Nat)
  | _, [] => none
  | st, b :: bs =>
      let st1 := dispatch_batch st b
      if st1.exit then some (st1, 1)
      else (simple_layer_loop st1 bs).map (fun r => (r.1, r.2 + 1))

/-- Events the Backend dispatches inside Application::run. -/
inductive BEvent where
  | requestClose
  | configure (target : Nat)
deriving DecidableEq, Repr

/-- WindowHandler::request_close for Backend: it only prints "Window wants to
    close"; the Backend has no exit flag and nothing changes. -/
def backend_request_close (windows : List Window) : List Window :=
  windows

/-- Event dispatch over the Backend state. -/
def backend_dispatch (windows : List Window) : BEvent → List Window
  | BEvent.requestClose => backend_request_close windows
  | BEvent.configure t => backend_configure windows t

/-- Application::run: loop { blocking_dispatch } — the body has no exit check
    and no break, so the loop consumes every delivered batch and is always
    still running (none) afterwards. -/
def application_run : List Window → List (List BEvent) → Option (List Window)
  | _, [] => none
  | ws, b :: bs => application_run (b.foldl backend_dispatch ws) bs

/-! ## Theorems -/

/-- C1: the binder requests desktop OpenGL first; exactly when that request is
    rejected it issues exactly one further GLES request (never a second
    retry); and if the GLES request also fails the bind is the fatal
    "Failed to create context" outcome. -/
theorem context_bind_single_es_retry (driver : ContextApi → CtxResult) :
    (create_context_with_fallback driver).1.head? = some ContextApi.openGl
    ∧ (create_context_with_fallback driver).1.count ContextApi.gles
        = (if ctxOk (driver ContextApi.openGl) then 0 else 1)
    ∧ (create_context_with_fallback driver).1.length ≤ 2
    ∧ (ctxOk (driver ContextApi.openGl) = true →
        (create_context_with_fallback driver).2 = driver ContextApi.openGl)
    ∧ (ctxOk (driver ContextApi.openGl) = false →
        ctxOk (driver ContextApi.gles) = false →
        finish_context_bind (create_context_with_fallback driver).2
          = BindOutcome.fatal "Failed to create context") := by
  rcases hgl : driver ContextApi.openGl with e | c
  · rcases hes : driver ContextApi.gles with e2 | c2 <;>
      simp [create_context_with_fallback, finish_context_bind, ctxOk, hgl, hes]
  · simp [create_context_with_fallback, finish_context_bind, ctxOk, hgl]

/-- C2 counterexample: the xdg-window configure handler of EglExample keeps a
    reported zero width literally — the configure event reporting size (0, 600)
    yields working size (0, 600), not the claimed 256×256 fallback. -/
theorem egl_configure_keeps_zero_width :
    egl_example_configure_size (some (0, 600)) = (0, 600)
    ∧ egl_example_configure_size (some (0, 600)) ≠ (256, 256) := by
  constructor
  · rfl
  · decide

/-- C2 (amended): the layer-shell configure handler substitutes 256×256
    whenever the reported width or height is zero and takes the reported size
    as the working size whenever both dimensions are non-zero; the xdg-window
    example handler instead substitutes its own fallback 1280×800 exactly when
    no size is reported, taking any reported size literally. -/
theorem configure_size_fallbacks (w h : Nat) :
    (w = 0 ∨ h = 0 → simple_layer_configure_size (w, h) = (256, 256))
    ∧ (w ≠ 0 → h ≠ 0 → simple_layer_configure_size (w, h) = (w, h))
    ∧ egl_example_configure_size none = (1280, 800)
    ∧ (∀ p : Nat × Nat, egl_example_configure_size (some p) = p) := by
  refine ⟨?_, ?_, rfl, fun p => rfl⟩
  · intro hz
    simp [simple_layer_configure_size, hz]
  · intro hw hh
    simp [simple_layer_configure_size, hw, hh]

/-- C7 counterexample: interphace's binder does not implement the contract
    bind_context(surface, width, height) — it takes no dimensions and creates
    the presentation target at the hardcoded size 100×100, so a bind whose
    window needs an 800×600 target does not get one. -/
theorem interphace_bind_ignores_dimensions :
    initialize_gl_context_surface_size = some (100, 100)
    ∧ initialize_gl_context_surface_size ≠ bind_context_spec_size 800 600 := by
  constructor
  · rfl
  · decide

/-- C7 (amended): the example binders create the window-surface presentation
    target at exactly the given non-zero width and height, matching the spec
    contract; interphace's initialize_gl_context accepts no dimensions and
    always creates the target at 100×100. -/
theorem presentation_target_dimensions (w h : Nat) (hw : w ≠ 0) (hh : h ≠ 0) :
    init_egl_surface_size w h = some (w, h)
    ∧ init_egl_surface_size w h = bind_context_spec_size w h
    ∧ initialize_gl_context_surface_size = some (100, 100) := by
  refine ⟨?_, ?_, rfl⟩ <;>
    simp [init_egl_surface_size, build_surface_attributes, bind_context_spec_size, hw, hh]

/-- C7 witness: the xdg example's bind at 1280×720 (src/main.rs line 64). -/
theorem presentation_target_dimensions_at_1280_720 :
    init_egl_surface_size 1280 720 = some (1280, 720)
    ∧ init_egl_surface_size 1280 720 = bind_context_spec_size 1280 720
    ∧ initialize_gl_context_surface_size = some (100, 100) :=
  presentation_target_dimensions 1280 720 (by decide) (by decide)

/-- Length is preserved by the backend's configure handler. -/
theorem backend_configure_length (windows : List Window) (target : Nat) :
    (backend_configure windows target).length = windows.length := by
  induction windows with
  | nil => rfl
  | cons w ws ih =>
      by_cases h : w.xdg_window = target <;> simp [backend_configure, h, ih]

/-- A list entry whose xdg window is not the configure event's window is left
    untouched by the handler. -/
theorem backend_configure_getD_untouched (windows : List Window) (target i : Nat)
    (h : (windows.getD i defaultWindow).xdg_window ≠ target) :
    (backend_configure windows target).getD i defaultWindow
      = windows.getD i defaultWindow := by
  induction windows generalizing i with
  | nil => simp [backend_configure]
  | cons w ws ih =>
      cases i with
      | zero =>
          simp only [List.getD_cons_zero] at h
          simp [backend_configure, h]
      | succ j =>
          by_cases hw : w.xdg_window = target
          · simp [backend_configure, hw]
          · simp only [backend_configure, hw, if_neg, List.getD_cons_succ]
            exact ih j (by simpa using h)

/-- The first list entry matching the configure event's window gets exactly
    Window::draw applied to it. -/
theorem backend_configure_getD_matched (windows : List Window) (target i : Nat)
    (hi : i < windows.length)
    (hm : (windows.getD i defaultWindow).xdg_window = target)
    (hfirst : target ∉ (windows.take i).map Window.xdg_window) :
    (backend_configure windows target).getD i defaultWindow
      = Window.draw (windows.getD i defaultWindow) := by
  induction windows generalizing i with
  | nil => simp at hi
  | cons w ws ih =>
      cases i with
      | zero =>
          simp only [List.getD_cons_zero] at hm ⊢
          simp [backend_configure, hm]
      | succ j =>
          simp only [List.take_succ_cons, List.map_cons, List.mem_cons] at hfirst
          push_neg at hfirst
          have hw : w.xdg_window ≠ target := Ne.symm hfirst.1
          simp only [backend_configure, hw, if_neg, List.getD_cons_succ] at hm ⊢
          exact ih j (by simpa using hi) hm hfirst.2

/-- C8: the liveness check on the surface's connection is the first step of
    handle derivation: a closed connection (upgrade = none) is the fatal
    "Connection has been closed" error and never reaches handle derivation;
    handles are derived exactly when the connection is live, and the display
    handle comes from the live connection's display pointer. -/
theorem liveness_check_guards_handle_derivation (bu : Option Nat) (sid : Nat) :
    derive_native_handles none sid = Except.error "Connection has been closed"
    ∧ (∀ hs, derive_native_handles bu sid = Except.ok hs →
        ∃ d, bu = some d ∧ hs.1 = RawHandle.waylandDisplay d)
    ∧ (handlesOk (derive_native_handles bu sid) = true ↔ bu ≠ none) := by
  refine ⟨rfl, ?_, ?_⟩
  · intro hs hok
    cases bu with
    | none => simp [derive_native_handles] at hok
    | some d =>
        refine ⟨d, rfl, ?_⟩
        simp [derive_native_handles] at hok
        simp [← hok]
  · cases bu <;> simp [derive_native_handles, handlesOk]

/-- C10: seat-capability handling is idempotent — a keyboard (resp. pointer)
    capability-add while a keyboard (resp. pointer) handle is already held
    leaves the state unchanged (no second device is created, the device
    counter does not move), and a capability-remove while no such handle is
    held changes nothing. -/
theorem seat_capability_idempotent (st st2 : SeatCaps) (k p : Nat)
    (hk : st.keyboard = some k) (hp : st.pointer = some p)
    (hk2 : st2.keyboard = none) (hp2 : st2.pointer = none) :
    new_capability st Capability.keyboard = st
    ∧ new_capability st Capability.pointer = st
    ∧ remove_capability st2 Capability.keyboard = st2
    ∧ remove_capability st2 Capability.pointer = st2 := by
  refine ⟨?_, ?_, ?_, ?_⟩ <;>
    simp [new_capability, remove_capability, hk, hp, hk2, hp2]

/-- C10 witness: a state already holding both devices, and a state holding
    neither, at concrete values. -/
theorem seat_capability_idempotent_at_concrete_state :
    new_capability ⟨some 1, some 2, 3⟩ Capability.keyboard = ⟨some 1, some 2, 3⟩
    ∧ new_capability ⟨some 1, some 2, 3⟩ Capability.pointer = ⟨some 1, some 2, 3⟩
    ∧ remove_capability ⟨none, none, 0⟩ Capability.keyboard = ⟨none, none, 0⟩
    ∧ remove_capability ⟨none, none, 0⟩ Capability.pointer = ⟨none, none, 0⟩ :=
  seat_capability_idempotent ⟨some 1, some 2, 3⟩ ⟨none, none, 0⟩ 1 2 rfl rfl rfl rfl

/-- An interphace window with a given protocol identity and a fresh
    GraphicsContext, as the three windows of crates/phrame/src/main.rs. -/
def phrame_window (n : Nat) : Window :=
  { defaultWindow with xdg_window := n }

/-- C3: a configure event is matched to a window by the identity of its
    protocol window object; the handler applies Window::draw to exactly the
    (first) matched entry of the window list, and every other window's
    graphics context and canvas are left untouched. -/
theorem configure_touches_only_matched_window (windows : List Window)
    (target i : Nat) (hi : i < windows.length) :
    (backend_configure windows target).length = windows.length
    ∧ ((windows.getD i defaultWindow).xdg_window ≠ target →
        (backend_configure windows target).getD i defaultWindow
          = windows.getD i defaultWindow)
    ∧ ((windows.getD i defaultWindow).xdg_window = target →
        target ∉ (windows.take i).map Window.xdg_window →
        (backend_configure windows target).getD i defaultWindow
          = Window.draw (windows.getD i defaultWindow)) :=
  ⟨backend_configure_length windows target,
   fun h => backend_configure_getD_untouched windows target i h,
   fun hm hfirst => backend_configure_getD_matched windows target i hi hm hfirst⟩

/-- C3 witness: three windows with identities 1, 2, 3; the configure event for
    window 2 draws exactly the middle entry. -/
theorem configure_touches_only_matched_window_at_three_windows :
    (backend_configure [phrame_window 1, phrame_window 2, phrame_window 3] 2).length
        = [phrame_window 1, phrame_window 2, phrame_window 3].length
    ∧ (([phrame_window 1, phrame_window 2, phrame_window 3].getD 1
          defaultWindow).xdg_window ≠ 2 →
        (backend_configure [phrame_window 1, phrame_window 2, phrame_window 3] 2).getD 1
            defaultWindow
          = [phrame_window 1, phrame_window 2, phrame_window 3].getD 1 defaultWindow)
    ∧ (([phrame_window 1, phrame_window 2, phrame_window 3].getD 1
          defaultWindow).xdg_window = 2 →
        (2 : Nat) ∉ ([phrame_window 1, phrame_window 2, phrame_window 3].take 1).map
            Window.xdg_window →
        (backend_configure [phrame_window 1, phrame_window 2, phrame_window 3] 2).getD 1
            defaultWindow
          = Window.draw ([phrame_window 1, phrame_window 2, phrame_window 3].getD 1
              defaultWindow)) :=
  configure_touches_only_matched_window
    [phrame_window 1, phrame_window 2, phrame_window 3] 2 1 (by decide)

/-- C9: a configure event for an xdg window that is absent from the backend's
    window list performs no draw and leaves the window list — hence every
    window's graphics context and canvas — unchanged. -/
theorem configure_unknown_window_is_noop (windows : List Window) (target : Nat)
    (h : target ∉ windows.map Window.xdg_window) :
    backend_configure windows target = windows := by
  induction windows with
  | nil => rfl
  | cons w ws ih =>
      simp only [List.map_cons, List.mem_cons] at h
      push_neg at h
      simp [backend_configure, Ne.symm h.1, ih h.2]

/-- C9 witness: the backend with windows 1, 2, 3 ignores a configure event for
    the unknown window 7. -/
theorem configure_unknown_window_is_noop_at_three_windows :
    backend_configure [phrame_window 1, phrame_window 2, phrame_window 3] 7
      = [phrame_window 1, phrame_window 2, phrame_window 3] :=
  configure_unknown_window_is_noop
    [phrame_window 1, phrame_window 2, phrame_window 3] 7 (by decide)

/-- In a multi-window interphace session every trace event executes with the
    drawing window's context current, whatever context was current before. -/
theorem backend_trace_ok (draws : List Nat) (cur : Option Nat) :
    trace_current_ok (backend_session_trace draws) cur = true := by
  induction draws generalizing cur with
  | nil => rfl
  | cons c rest ih =>
      simp [backend_session_trace, window_draw_trace, trace_current_ok,
            event_ok, next_current, ih]

/-- In a multi-window interphace session every draw call is immediately
    preceded by a make-current call for its own context. -/
theorem backend_mc_before (draws : List Nat) (prev : Option GlEvent) :
    mc_immediately_before prev (backend_session_trace draws) = true := by
  induction draws generalizing prev with
  | nil => rfl
  | cons c rest ih =>
      simp [backend_session_trace, window_draw_trace, mc_immediately_before, ih]

/-- The layer-shell session's draws all execute with the startup context
    current. -/
theorem simple_layer_draws_ok (c n : Nat) :
    trace_current_ok (simple_layer_draws_trace c n) (some c) = true := by
  induction n with
  | zero => rfl
  | succ n ih =>
      simp [simple_layer_draws_trace, simple_layer_draw_trace, trace_current_ok,
            event_ok, next_current, ih]

/-- C4 counterexample: the claim's parenthetical — a make-current call
    immediately precedes each per-window draw in every variant — fails in the
    layer-shell variant: in a session with two draws the second draw call is
    immediately preceded by the previous frame's present, not by a
    make-current call. -/
theorem simple_layer_draw_lacks_make_current :
    mc_immediately_before none (simple_layer_session_trace 7 2) = false := by
  decide

/-- C4 (amended): every drawing or presenting call executes with the drawing
    window's context current on the thread — in the multi-window interphace
    variant because Window::draw begins with make_current, and in the
    layer-shell variant because the single context is made current once at
    startup and no later event changes it; only the interphace variant has a
    make-current call immediately before each draw. -/
theorem draws_execute_with_context_current (draws : List Nat) (c n : Nat) :
    trace_current_ok (backend_session_trace draws) none = true
    ∧ mc_immediately_before none (backend_session_trace draws) = true
    ∧ trace_current_ok (simple_layer_session_trace c n) none = true :=
  ⟨backend_trace_ok draws none, backend_mc_before draws none, by
    simp [simple_layer_session_trace, trace_current_ok, event_ok, next_current,
          simple_layer_draws_ok c n]⟩

/-- C5 (code bug): a configure event changing the size to 800×600 resizes the
    EGL presentation target in place to 800×600, but the skia canvas is never
    recreated — the triggered draw still uses the 1280×720 canvas constructed
    at startup, against the spec's requirement that the canvas wrapper be
    recreated whenever the presentation target's pixel size changes. -/
theorem configure_never_recreates_canvas :
    EglExample.configure egl_example_initial (some (800, 600))
      = some { width := 800, height := 600, surface_size := (800, 600),
               canvas_size := (1280, 720), draw_canvas_sizes := [(1280, 720)] } := by
  rfl

/-- C6 counterexample: in the phrame entry point (Application::run over the
    Backend) a close-request changes nothing — the Backend has no exit flag,
    its close handler only prints — and the dispatch loop has no exit check:
    after a close-request batch and two further iterations it is still
    running (none), so the claim fails for this entry point. -/
theorem application_run_never_exits_after_close :
    application_run [phrame_window 1, phrame_window 2, phrame_window 3]
        [[BEvent.requestClose], [], []] = none
    ∧ backend_request_close [phrame_window 1, phrame_window 2, phrame_window 3]
        = [phrame_window 1, phrame_window 2, phrame_window 3] :=
  ⟨rfl, rfl⟩

/-- C6 (amended): in the example entry points the dispatch loop terminates as
    claimed — a close event or the Escape key sets the exit flag, the flag is
    checked once per iteration boundary, and once the dispatched batch has set
    it the loop returns at that very iteration, dispatching none of the
    remaining batches and performing no further draws. The phrame entry
    point's Application::run, by contrast, checks no flag and never exits. -/
theorem exit_flag_stops_loop_within_one_iteration (st : SimpleLayer)
    (b : List SLEvent) (bs : List (List SLEvent))
    (h : (dispatch_batch st b).exit = true) :
    simple_layer_loop st (b :: bs) = some (dispatch_batch st b, 1)
    ∧ (SimpleLayer.handle st SLEvent.closed).exit = true
    ∧ (SimpleLayer.handle st (SLEvent.pressKey KEY_Escape)).exit = true
    ∧ (∀ ws bss, application_run ws bss = none) := by
  refine ⟨?_, rfl, by simp [SimpleLayer.handle], ?_⟩
  · simp [simple_layer_loop, h]
  · intro ws bss
    induction bss generalizing ws with
    | nil => rfl
    | cons b2 rest ih => simp [application_run, ih]

/-- C6 witness: a closed event in the first batch stops the loop at iteration
    one; the frame event of the second batch is never dispatched. -/
theorem exit_flag_stops_loop_at_closed_event :
    simple_layer_loop ⟨false, true, 256, 256, 0⟩
        [[SLEvent.closed], [SLEvent.frameDone]]
      = some (dispatch_batch ⟨false, true, 256, 256, 0⟩ [SLEvent.closed], 1) :=
  (exit_flag_stops_loop_within_one_iteration ⟨false, true, 256, 256, 0⟩
    [SLEvent.closed] [[SLEvent.frameDone]] (by decide)).1

end Phrame
